import Mathlib

/-!
Verification of the CPython/NumPy glue layer in `py-in-mem/glue.c` / `glue.h`.

The C code is embedded shallowly.  The embedded Python runtime is modelled as
a reference-counted object heap (`PyState`) together with an environment
(`Env`) fixing the outcome of each opaque runtime primitive for the call under
consideration (whether string conversion, module import, attribute lookup and
array creation succeed, and what object value the invoked detector callable
produces).  Each C function of glue.c is transcribed statement by statement as
a Lean function on `PyState`.

Modelling conventions:
  * `ObjId` is an abstract heap address; allocation hands out `nextId` and
    bumps it.  An owned reference is modelled by the reference count stored
    with the object; `decref` with count 1 deallocates (the slot becomes
    `none`), mirroring `Py_DECREF`.
  * `Ptr` models a C pointer: `null`, a pointer into a heap object's internal
    storage (`objData`), or a pointer to native memory (`native`).
  * The pending error indicator (`PyErr_Occurred`) is modelled by the value of
    the pending exception object; its own lifetime is managed by the runtime,
    not the bridge, and no claim concerns it.
  * `PyArray_SIZE` / `PyArray_GETPTR1` are macros that read struct fields at
    ndarray offsets without any type check; on a non-array object they
    reinterpret whatever bits live there.  `PyVal.otherObj` carries those
    reinterpreted bits explicitly (`npySize`).
  * `Py_Initialize` allocates interpreter state not observed by any claim and
    is elided; `init_python` models only the return-value behaviour of the C
    function (which falls off the end on success).
-/

namespace PyGlue

/-- Abstract address of an object in the embedded runtime's heap. -/
abbrev ObjId := Nat

/-- A C pointer: NULL, a pointer into a runtime object's internal storage,
or a pointer into a native (host-owned) buffer. -/
inductive Ptr where
  | null : Ptr
  | objData (o : ObjId) : Ptr
  | native (base : Nat) : Ptr
deriving DecidableEq, Repr

/-- The value held by a runtime object.  `ndarrayF64 base len` is the
zero-copy NumPy wrapper over a native float64 buffer (`PyArray_SimpleNewFromData`);
`ndarrayI64 data` is an index array produced by the detector; `otherObj bits`
is an object of any non-array type, with `bits` the garbage an ndarray size
read would reinterpret from its memory. -/
inductive PyVal where
  | strObj (s : String) : PyVal
  | tupleObj (items : List (Option ObjId)) : PyVal
  | moduleObj : PyVal
  | funcObj : PyVal
  | ndarrayF64 (base : Nat) (len : Int) : PyVal
  | ndarrayI64 (data : List Int) : PyVal
  | excObj (msg : String) : PyVal
  | otherObj (bits : Int) : PyVal
deriving DecidableEq, Repr

/-- A heap cell: the object's value together with its reference count. -/
structure PyObjRec where
  val : PyVal
  rc : Nat
deriving DecidableEq, Repr

/-- State of the embedded runtime: the object heap, the next fresh address,
and the pending-error indicator (the value of the pending exception, if any). -/
structure PyState where
  heap : Nat → Option PyObjRec
  nextId : Nat
  pendingErr : Option PyVal

/-- Allocate a fresh object with reference count 1 (a new owned reference),
returning the new state and the object's address. -/
def alloc (s : PyState) (v : PyVal) : PyState × ObjId :=
  ({ heap := fun i => if i = s.nextId then some ⟨v, 1⟩ else s.heap i,
     nextId := s.nextId + 1,
     pendingErr := s.pendingErr }, s.nextId)

/-- `Py_DECREF`: drop one owned reference; at count 1 the object is
deallocated and its storage becomes invalid. -/
def decref (s : PyState) (o : ObjId) : PyState :=
  match s.heap o with
  | none => s
  | some r =>
    if r.rc ≤ 1 then
      { s with heap := fun i => if i = o then none else s.heap i }
    else
      { s with heap := fun i => if i = o then some ⟨r.val, r.rc - 1⟩ else s.heap i }

/-- Record a pending runtime error (the failing primitive raised). -/
def raiseExc (s : PyState) (msg : String) : PyState :=
  { s with pendingErr := some (.excObj msg) }

/-- The environment fixes, for the call under consideration, the outcome of
each opaque runtime primitive: whether `PyUnicode_FromString`,
`PyImport_Import`, `PyObject_GetAttrString`, `PyArray_SimpleNewFromData` and
`import_array` succeed, and the behaviour of the invoked callable
(`call f n` is the value of the object the callable at address `f` returns
for an input array of reported length `n`; `none` means it raises). -/
structure Env where
  fromStringOk : Bool
  importOk : Bool
  getattrOk : Bool
  arrayNewOk : Bool
  call : ObjId → Int → Option PyVal
  importArrayOk : Bool

/-- `PyUnicode_FromString`: convert a C string to a new owned string object,
or fail (returning NULL with a pending error). -/
def PyUnicode_FromString (env : Env) (s : PyState) (str : String) :
    PyState × Option ObjId :=
  if env.fromStringOk then
    let (s1, o) := alloc s (.strObj str)
    (s1, some o)
  else
    (raiseExc s "bad module name", none)

/-- `PyImport_Import`: import the module named by the given string object,
returning a new owned module reference, or NULL with a pending error. -/
def PyImport_Import (env : Env) (s : PyState) (_nameObj : ObjId) :
    PyState × Option ObjId :=
  if env.importOk then
    let (s1, m) := alloc s .moduleObj
    (s1, some m)
  else
    (raiseExc s "module not found", none)

/-- `PyObject_GetAttrString`: look up an attribute, returning a new owned
reference to the function object, or NULL with a pending error. -/
def PyObject_GetAttrString (env : Env) (s : PyState) (_modObj : ObjId)
    (_attr : String) : PyState × Option ObjId :=
  if env.getattrOk then
    let (s1, f) := alloc s .funcObj
    (s1, some f)
  else
    (raiseExc s "function not found", none)

/-- glue.c `load_func`: transcription of
```
PyObject *py_mod_name = PyUnicode_FromString(module_name);
if (py_mod_name == NULL) return NULL;
PyObject *module = PyImport_Import(py_mod_name);
Py_DECREF(py_mod_name);
if (module == NULL) return NULL;
PyObject *func = PyObject_GetAttrString(module, func_name);
Py_DECREF(module);
return func;
``` -/
def load_func (env : Env) (s : PyState) (module_name : String)
    (func_name : String) : PyState × Option ObjId :=
  let (s1, mod_name?) := PyUnicode_FromString env s module_name
  match mod_name? with
  | none => (s1, none)
  | some py_mod_name =>
    let (s2, module?) := PyImport_Import env s1 py_mod_name
    let s3 := decref s2 py_mod_name
    match module? with
    | none => (s3, none)
    | some module =>
      let (s4, func) := PyObject_GetAttrString env s3 module func_name
      let s5 := decref s4 module
      (s5, func)

/-- glue.h `result_t`: `{ PyObject *obj; long *indices; long size; int err; }`. -/
structure result_t where
  obj : Option ObjId
  indices : Ptr
  size : Int
  err : Int
deriving DecidableEq, Repr

/-- `PyArray_SimpleNewFromData(1, dim, NPY_DOUBLE, values)`: wrap the native
buffer at `values` of length `size` as a new owned zero-copy ndarray, or fail
(NULL with pending error). -/
def PyArray_SimpleNewFromData (env : Env) (s : PyState) (size : Int)
    (values : Nat) : PyState × Option ObjId :=
  if env.arrayNewOk then
    let (s1, a) := alloc s (.ndarrayF64 values size)
    (s1, some a)
  else
    (raiseExc s "array creation failed", none)

/-- `PyTuple_New n`: a new owned tuple with `n` empty slots (glue.c does not
check its result; in the model it always succeeds). -/
def PyTuple_New (s : PyState) (n : Nat) : PyState × ObjId :=
  alloc s (.tupleObj (List.replicate n none))

/-- `PyTuple_SetItem t i o`: store `o` in slot `i` of tuple `t`.  It STEALS
the reference to `o`: the tuple now holds the caller's owned reference, with
no reference-count change. -/
def PyTuple_SetItem (s : PyState) (t : ObjId) (i : Nat) (o : ObjId) : PyState :=
  { s with heap := fun j =>
      if j = t then
        match s.heap t with
        | some r =>
          match r.val with
          | .tupleObj items => some ⟨.tupleObj (items.set i (some o)), r.rc⟩
          | v => some ⟨v, r.rc⟩
        | none => none
      else s.heap j }

/-- The input length the invoked callable sees: the reported length of the
ndarray stored in slot 0 of the argument tuple. -/
def argSize (s : PyState) (args : ObjId) : Int :=
  match s.heap args with
  | some ⟨.tupleObj (some a :: _), _⟩ =>
    match s.heap a with
    | some ⟨.ndarrayF64 _ n, _⟩ => n
    | _ => 0
  | _ => 0

/-- `PyObject_CallObject func args`: run the detector callable.  Its
behaviour is fixed by the environment: on `some v` a fresh owned object with
value `v` is returned; on `none` the callable raised, so the result is NULL
with a pending error. -/
def PyObject_CallObject (env : Env) (s : PyState) (func : ObjId)
    (args : ObjId) : PyState × Option ObjId :=
  match env.call func (argSize s args) with
  | some v =>
    let (s1, o) := alloc s v
    (s1, some o)
  | none =>
    (raiseExc s "exception in call", none)

/-- The bits `PyArray_SIZE` reads from an object's memory at the ndarray
dimension offsets.  This is a macro field access with NO type check: on a
non-array object it reinterprets whatever is stored there (`otherObj bits`
carries those bits explicitly; for the remaining non-array constructors the
model fixes the garbage read to 0). -/
def npySize : PyVal → Int
  | .ndarrayI64 data => data.length
  | .ndarrayF64 _ len => len
  | .otherObj bits => bits
  | _ => 0

/-- `PyArray_SIZE out`: unchecked read of the reported element count. -/
def PyArray_SIZE (s : PyState) (o : ObjId) : Int :=
  match s.heap o with
  | some r => npySize r.val
  | none => 0

/-- `PyArray_GETPTR1 out 0`: address arithmetic into the object's own
storage, again with no type check. -/
def PyArray_GETPTR1 (o : ObjId) (_i : Nat) : Ptr :=
  Ptr.objData o

/-- glue.c `detect`: transcription of
```
result_t res = {NULL, 0};
PyObject *arr = PyArray_SimpleNewFromData(1, dim, NPY_DOUBLE, values);
if (arr == NULL) { res.err = 1; return res; }
PyObject *args = PyTuple_New(1);
PyTuple_SetItem(args, 0, arr);
PyArrayObject *out = (PyArrayObject *)PyObject_CallObject(func, args);
if (out == NULL) { res.err = 1; return res; }
res.obj = (PyObject *)out;
res.size = PyArray_SIZE(out);
res.indices = (long *)PyArray_GETPTR1(out, 0);
return res;
```
(`{NULL, 0}` zero-initialises every field; note the cast of `out` is made
with no type check, and `args` is never released). -/
def detect (env : Env) (s : PyState) (func : ObjId) (values : Nat)
    (size : Int) : PyState × result_t :=
  let res : result_t := ⟨none, .null, 0, 0⟩
  let (s1, arr?) := PyArray_SimpleNewFromData env s size values
  match arr? with
  | none => (s1, { res with err := 1 })
  | some arr =>
    let (s2, args) := PyTuple_New s1 1
    let s3 := PyTuple_SetItem s2 args 0 arr
    let (s4, out?) := PyObject_CallObject env s3 func args
    match out? with
    | none => (s4, { res with err := 1 })
    | some out =>
      (s4, { obj := some out,
             size := PyArray_SIZE s4 out,
             indices := PyArray_GETPTR1 out 0,
             err := 0 })

/-- `PyErr_Occurred`: borrowed view of the pending error, NULL if none. -/
def PyErr_Occurred (s : PyState) : Option PyVal :=
  s.pendingErr

/-- The runtime's own string conversion, `str(v)`. -/
def pyToStr : PyVal → String
  | .excObj m => m
  | .strObj s => s
  | _ => "object"

/-- `PyObject_Str v`: a new owned string object holding `str(v)`. -/
def PyObject_Str (s : PyState) (v : PyVal) : PyState × ObjId :=
  alloc s (.strObj (pyToStr v))

/-- `PyUnicode_AsUTF8 str`: a pointer into the string OBJECT'S internal
UTF-8 storage (valid only while the object is alive). -/
def PyUnicode_AsUTF8 (strId : ObjId) : Ptr :=
  Ptr.objData strId

/-- glue.c `py_last_error`: transcription of
```
PyObject *err = PyErr_Occurred();
if (err == NULL) return NULL;
PyObject *str = PyObject_Str(err);
const char *utf8 = PyUnicode_AsUTF8(str);
Py_DECREF(str);
return utf8;
``` -/
def py_last_error (s : PyState) : PyState × Option Ptr :=
  match PyErr_Occurred s with
  | none => (s, none)
  | some errVal =>
    let (s1, str) := PyObject_Str s errVal
    let utf8 := PyUnicode_AsUTF8 str
    let s2 := decref s1 str
    (s2, some utf8)

/-- glue.c `py_decref`: thin wrapper over `Py_DECREF`. -/
def py_decref (s : PyState) (o : ObjId) : PyState :=
  decref s o

/-- The value a C function call delivers to its caller: an explicit
`return e`, or `undef` when control falls off the end of a non-void function
(the value is unspecified). -/
inductive CRet where
  | value (p : Ptr) : CRet
  | undef : CRet
deriving DecidableEq, Repr

/-- glue.c `init_python`: `Py_Initialize(); import_array();` — the
`import_array()` macro executes `return NULL;` on failure; on success control
reaches the end of the non-void function with no return statement, so the
returned value is unspecified. -/
def init_python (env : Env) : CRet :=
  if env.importArrayOk then CRet.undef else CRet.value Ptr.null

/-- What a caller reading the returned value observes: an explicit return is
seen as returned; an unspecified return is seen as arbitrary garbage
(`junk`). -/
def observeRet (r : CRet) (junk : Ptr) : Ptr :=
  match r with
  | .value p => p
  | .undef => junk

/-- Is the object value of the NumPy array type the cast in `detect`
assumes?  (Either array kind counts.) -/
def isNdarray : PyVal → Bool
  | .ndarrayI64 _ => true
  | .ndarrayF64 _ _ => true
  | _ => false

/-- Read `n` elements of a signed-integer index buffer through a pointer:
defined only when the pointer targets a live `ndarrayI64` object holding at
least `n` elements. -/
def readIndices (s : PyState) (p : Ptr) (n : Nat) : Option (List Int) :=
  match p with
  | .objData o =>
    match s.heap o with
    | some ⟨.ndarrayI64 data, _⟩ => if n ≤ data.length then some (data.take n) else none
    | _ => none
  | _ => none

/-- The identity-index array `[0, 1, ..., n-1]`. -/
def identityIndices (n : Nat) : List Int :=
  (List.range n).map Int.ofNat

/-- A runtime state is fresh-consistent when no address at or above `nextId`
is allocated. -/
def heapFreshFrom (s : PyState) : Prop :=
  ∀ i, s.nextId ≤ i → s.heap i = none

/-- The runtime state at process start: empty heap, no pending error. -/
def emptyState : PyState :=
  { heap := fun _ => none, nextId := 0, pendingErr := none }

/-! ### Path characterisations of `detect` -/

/-- On the success path (array creation succeeds, callable returns an object
with value `v`), `detect` allocates the array view at `nextId`, the argument
tuple at `nextId + 1` and the returned object at `nextId + 2`, and populates
the result from the returned object with no type check. -/
theorem detect_ok (env : Env) (s : PyState) (func : ObjId) (values : Nat)
    (size : Int) (v : PyVal) (hA : env.arrayNewOk = true)
    (hc : env.call func size = some v) :
    (detect env s func values size).2 =
      ⟨some (s.nextId + 2), Ptr.objData (s.nextId + 2), npySize v, 0⟩ ∧
    (detect env s func values size).1.heap (s.nextId + 2) = some ⟨v, 1⟩ ∧
    (detect env s func values size).1.heap (s.nextId + 1) =
      some ⟨.tupleObj [some s.nextId], 1⟩ ∧
    (detect env s func values size).1.heap s.nextId =
      some ⟨.ndarrayF64 values size, 1⟩ ∧
    (detect env s func values size).1.pendingErr = s.pendingErr := by
  have e2 : s.nextId + 1 + 1 = s.nextId + 2 := rfl
  have hne12 : s.nextId + 1 ≠ s.nextId + 2 := by omega
  have hne01 : s.nextId ≠ s.nextId + 1 := by omega
  have hne02 : s.nextId ≠ s.nextId + 2 := by omega
  refine ⟨?_, ?_, ?_, ?_, ?_⟩ <;>
    simp [detect, PyArray_SimpleNewFromData, hA, alloc, PyTuple_New,
      PyTuple_SetItem, PyObject_CallObject, argSize, hc, PyArray_SIZE,
      PyArray_GETPTR1, List.replicate, e2, hne12, hne01, hne02]

/-- On the invocation-failure path (array creation succeeds, callable
raises), `detect` returns the zeroed result with the error flag set; the
array view and the argument tuple are still allocated, unreleased. -/
theorem detect_raise (env : Env) (s : PyState) (func : ObjId) (values : Nat)
    (size : Int) (hA : env.arrayNewOk = true)
    (hc : env.call func size = none) :
    (detect env s func values size).2 = ⟨none, Ptr.null, 0, 1⟩ ∧
    (detect env s func values size).1.heap (s.nextId + 1) =
      some ⟨.tupleObj [some s.nextId], 1⟩ ∧
    (detect env s func values size).1.heap s.nextId =
      some ⟨.ndarrayF64 values size, 1⟩ ∧
    (detect env s func values size).1.pendingErr =
      some (.excObj "exception in call") := by
  have hne01 : s.nextId ≠ s.nextId + 1 := by omega
  refine ⟨?_, ?_, ?_, ?_⟩ <;>
    simp [detect, PyArray_SimpleNewFromData, hA, alloc, PyTuple_New,
      PyTuple_SetItem, PyObject_CallObject, argSize, hc, raiseExc,
      List.replicate, hne01]

/-- On the array-creation-failure path, `detect` returns the zeroed result
with the error flag set and the heap untouched. -/
theorem detect_noarr (env : Env) (s : PyState) (func : ObjId) (values : Nat)
    (size : Int) (hA : env.arrayNewOk = false) :
    detect env s func values size =
      (raiseExc s "array creation failed", ⟨none, Ptr.null, 0, 1⟩) := by
  simp [detect, PyArray_SimpleNewFromData, hA]

/-! ### Path characterisations of `load_func` -/

/-- String-conversion failure: nothing was acquired, nothing to release. -/
theorem load_func_badname (env : Env) (s : PyState) (m f : String)
    (hF : env.fromStringOk = false) :
    load_func env s m f = (raiseExc s "bad module name", none) := by
  simp [load_func, PyUnicode_FromString, hF]

/-- Import failure: the module-name string object (allocated at `nextId`)
has been released again; every other address is untouched. -/
theorem load_func_noimport (env : Env) (s : PyState) (m f : String)
    (hF : env.fromStringOk = true) (hI : env.importOk = false) :
    (load_func env s m f).2 = none ∧
    (load_func env s m f).1.heap s.nextId = none ∧
    (∀ i, i ≠ s.nextId → (load_func env s m f).1.heap i = s.heap i) ∧
    (load_func env s m f).1.nextId = s.nextId + 1 ∧
    (load_func env s m f).1.pendingErr = some (.excObj "module not found") := by
  refine ⟨?_, ?_, fun i hi => ?_, ?_, ?_⟩ <;>
    simp [load_func, PyUnicode_FromString, hF, alloc, PyImport_Import, hI,
      raiseExc, decref, *]

/-- Attribute-lookup failure: both the string object (`nextId`) and the
module object (`nextId + 1`) have been released again. -/
theorem load_func_noattr (env : Env) (s : PyState) (m f : String)
    (hF : env.fromStringOk = true) (hI : env.importOk = true)
    (hG : env.getattrOk = false) :
    (load_func env s m f).2 = none ∧
    (load_func env s m f).1.heap s.nextId = none ∧
    (load_func env s m f).1.heap (s.nextId + 1) = none ∧
    (∀ i, i ≠ s.nextId → i ≠ s.nextId + 1 →
      (load_func env s m f).1.heap i = s.heap i) ∧
    (load_func env s m f).1.nextId = s.nextId + 2 ∧
    (load_func env s m f).1.pendingErr = some (.excObj "function not found") := by
  have hne01 : s.nextId ≠ s.nextId + 1 := by omega
  have hne10 : s.nextId + 1 ≠ s.nextId := by omega
  refine ⟨?_, ?_, ?_, fun i hi0 hi1 => ?_, ?_, ?_⟩ <;>
    simp [load_func, PyUnicode_FromString, hF, alloc, PyImport_Import, hI,
      PyObject_GetAttrString, hG, raiseExc, decref, hne01, hne10, *]

/-- Full success: the string (`nextId`) and module (`nextId + 1`) objects
have been released again; only the function object (`nextId + 2`) remains,
with exactly one owned reference, and it is the returned handle. -/
theorem load_func_ok (env : Env) (s : PyState) (m f : String)
    (hF : env.fromStringOk = true) (hI : env.importOk = true)
    (hG : env.getattrOk = true) :
    (load_func env s m f).2 = some (s.nextId + 2) ∧
    (load_func env s m f).1.heap s.nextId = none ∧
    (load_func env s m f).1.heap (s.nextId + 1) = none ∧
    (load_func env s m f).1.heap (s.nextId + 2) = some ⟨.funcObj, 1⟩ ∧
    (∀ i, i ≠ s.nextId → i ≠ s.nextId + 1 → i ≠ s.nextId + 2 →
      (load_func env s m f).1.heap i = s.heap i) ∧
    (load_func env s m f).1.nextId = s.nextId + 3 ∧
    (load_func env s m f).1.pendingErr = s.pendingErr := by
  have e2 : s.nextId + 1 + 1 = s.nextId + 2 := rfl
  have e3 : s.nextId + 2 + 1 = s.nextId + 3 := rfl
  have hne01 : s.nextId ≠ s.nextId + 1 := by omega
  have hne02 : s.nextId ≠ s.nextId + 2 := by omega
  have hne10 : s.nextId + 1 ≠ s.nextId := by omega
  have hne12 : s.nextId + 1 ≠ s.nextId + 2 := by omega
  have hne21 : s.nextId + 2 ≠ s.nextId + 1 := by omega
  have hne20 : s.nextId + 2 ≠ s.nextId := by omega
  refine ⟨?_, ?_, ?_, ?_, fun i hi0 hi1 hi2 => ?_, ?_, ?_⟩ <;>
    simp [load_func, PyUnicode_FromString, hF, alloc, PyImport_Import, hI,
      PyObject_GetAttrString, hG, decref, e2, e3, hne01, hne02, hne10,
      hne12, hne21, hne20, *]

/-! ### Claim theorems -/

/-- Claim C1, counterexample: the callable returns an object that is NOT of
the expected foreign array type (`isNdarray` is false for it), yet `detect`
does not fail — the error flag stays 0, the handle is stored, and the
object's memory IS read as array metadata: the reinterpreted bits (7) end up
in `size` and `indices` points into the object's storage.  The type tag is
never validated before extraction. -/
theorem detect_accepts_wrong_type_cex :
    isNdarray (.otherObj 7) = false ∧
    (detect ⟨true, true, true, true, fun _ _ => some (.otherObj 7), true⟩
        emptyState 0 1000 4).2 =
      ⟨some 2, Ptr.objData 2, 7, 0⟩ := by
  exact ⟨rfl, rfl⟩

/-- Claim C1 (amended): `detect` performs no runtime-type validation of the
callable's return value: whenever the callable returns any object, of any
runtime type, the call succeeds with error flag 0, the object's memory is
read as the element count, and `indices` points into its storage. -/
theorem detect_reads_return_without_type_check (env : Env) (s : PyState)
    (func : ObjId) (values : Nat) (size : Int) (v : PyVal)
    (hA : env.arrayNewOk = true) (hc : env.call func size = some v) :
    (detect env s func values size).2.err = 0 ∧
    (detect env s func values size).2.size = npySize v ∧
    (detect env s func values size).2.indices = Ptr.objData (s.nextId + 2) ∧
    (detect env s func values size).1.heap (s.nextId + 2) = some ⟨v, 1⟩ := by
  have h := detect_ok env s func values size v hA hc
  exact ⟨by simp [h.1], by simp [h.1], by simp [h.1], h.2.1⟩

/-- Claim C1 (amended) witness at a concrete non-array return value. -/
theorem detect_reads_return_without_type_check_witness :
    (detect ⟨true, true, true, true, fun _ _ => some (.otherObj 9), true⟩
        emptyState 3 11 2).2.err = 0 ∧
    (detect ⟨true, true, true, true, fun _ _ => some (.otherObj 9), true⟩
        emptyState 3 11 2).2.size = npySize (.otherObj 9) := by
  have h := detect_reads_return_without_type_check
    ⟨true, true, true, true, fun _ _ => some (.otherObj 9), true⟩
    emptyState 3 11 2 (.otherObj 9) rfl rfl
  exact ⟨h.1, h.2.1⟩

/-- Claim C2: a successful `detect` stores the callable's return object in
`obj` as exactly one new owned reference (reference count 1), `indices`
points into that same object's storage, and the storage stays valid exactly
until the caller releases the handle: `py_decref` on it deallocates it. -/
theorem detect_retains_underlying (env : Env) (s : PyState) (func : ObjId)
    (values : Nat) (size : Int) (v : PyVal)
    (hA : env.arrayNewOk = true) (hc : env.call func size = some v) :
    (detect env s func values size).2.obj = some (s.nextId + 2) ∧
    (detect env s func values size).1.heap (s.nextId + 2) = some ⟨v, 1⟩ ∧
    (detect env s func values size).2.indices = Ptr.objData (s.nextId + 2) ∧
    (py_decref (detect env s func values size).1 (s.nextId + 2)).heap
      (s.nextId + 2) = none := by
  have h := detect_ok env s func values size v hA hc
  exact ⟨by simp [h.1], h.2.1, by simp [h.1],
    by simp [py_decref, decref, h.2.1]⟩

/-- Claim C2 witness at a concrete successful call. -/
theorem detect_retains_underlying_witness :
    (detect ⟨true, true, true, true, fun _ _ => some (.ndarrayI64 [3]), true⟩
        emptyState 4 21 5).2.obj = some 2 ∧
    (detect ⟨true, true, true, true, fun _ _ => some (.ndarrayI64 [3]), true⟩
        emptyState 4 21 5).1.heap 2 = some ⟨.ndarrayI64 [3], 1⟩ := by
  have h := detect_retains_underlying
    ⟨true, true, true, true, fun _ _ => some (.ndarrayI64 [3]), true⟩
    emptyState 4 21 5 (.ndarrayI64 [3]) rfl rfl
  exact ⟨h.1, h.2.1⟩

/-- Claim C3: `detect` fully succeeds or fully fails: the error flag is 1
exactly when array creation or the invocation fails, in which case the
result is the all-empty one (`obj` NULL, `indices` NULL, count 0); the flag
is 0 exactly otherwise, in which case `obj` holds a live handle and
`indices` points into it. -/
theorem detect_all_or_nothing (env : Env) (s : PyState) (func : ObjId)
    (values : Nat) (size : Int) :
    ((detect env s func values size).2.err = 1 ↔
      (env.arrayNewOk = false ∨ env.call func size = none)) ∧
    ((detect env s func values size).2.err = 1 →
      (detect env s func values size).2 = ⟨none, Ptr.null, 0, 1⟩) ∧
    ((detect env s func values size).2.err = 0 ↔
      ¬(env.arrayNewOk = false ∨ env.call func size = none)) ∧
    ((detect env s func values size).2.err = 0 →
      ∃ o, (detect env s func values size).2.obj = some o ∧
        (detect env s func values size).2.indices = Ptr.objData o ∧
        (detect env s func values size).1.heap o ≠ none) := by
  cases hA : env.arrayNewOk with
  | false =>
    have h := detect_noarr env s func values size hA
    simp [h, hA]
  | true =>
    cases hc : env.call func size with
    | none =>
      have h := detect_raise env s func values size hA hc
      simp [h.1, hA, hc]
    | some v =>
      have h := detect_ok env s func values size v hA hc
      refine ⟨by simp [h.1, hA, hc], by simp [h.1], by simp [h.1, hA, hc],
        fun _ => ⟨s.nextId + 2, by simp [h.1], by simp [h.1],
          by simp [h.2.1]⟩⟩

/-- Claim C3 witness: a concrete fully-failing call (the callable raises)
yields exactly the all-empty errored result. -/
theorem detect_all_or_nothing_witness :
    (detect ⟨true, true, true, true, fun _ _ => none, true⟩
        emptyState 0 5 3).2 = ⟨none, Ptr.null, 0, 1⟩ := by
  exact (detect_all_or_nothing ⟨true, true, true, true, fun _ _ => none, true⟩
    emptyState 0 5 3).2.1 (by decide)

/-- Claim C4: on every exit path of `load_func` (success, import failure,
attribute-lookup failure), the module-name string object and the module
object acquired during resolution are gone again when the function returns
(released exactly once — pre-existing objects are untouched, so there is no
over-release either), and the only surviving new owned reference is the
returned function handle, when there is one. -/
theorem load_func_releases_intermediates (env : Env) (s : PyState)
    (m f : String) (hfresh : heapFreshFrom s) :
    (load_func env s m f).1.heap s.nextId = none ∧
    (load_func env s m f).1.heap (s.nextId + 1) = none ∧
    (∀ i, i < s.nextId → (load_func env s m f).1.heap i = s.heap i) ∧
    (∀ g, (load_func env s m f).2 = some g →
      g = s.nextId + 2 ∧ (load_func env s m f).1.heap g = some ⟨.funcObj, 1⟩) ∧
    ((load_func env s m f).2 = none →
      ∀ i, s.nextId ≤ i → (load_func env s m f).1.heap i = none) := by
  cases hF : env.fromStringOk with
  | false =>
    have h := load_func_badname env s m f hF
    refine ⟨?_, ?_, fun i _ => ?_, fun g hg => ?_, fun _ i hi => ?_⟩
    · simp [h, raiseExc, hfresh s.nextId le_rfl]
    · simp [h, raiseExc, hfresh (s.nextId + 1) (by omega)]
    · simp [h, raiseExc]
    · rw [h] at hg; simp at hg
    · simp [h, raiseExc, hfresh i hi]
  | true =>
    cases hI : env.importOk with
    | false =>
      have h := load_func_noimport env s m f hF hI
      refine ⟨h.2.1, ?_, fun i hi => ?_, fun g hg => ?_, fun _ i hi => ?_⟩
      · rw [h.2.2.1 (s.nextId + 1) (by omega)]
        exact hfresh (s.nextId + 1) (by omega)
      · exact h.2.2.1 i (by omega)
      · rw [h.1] at hg; simp at hg
      · rcases eq_or_ne i s.nextId with rfl | hne
        · exact h.2.1
        · rw [h.2.2.1 i hne]; exact hfresh i hi
    | true =>
      cases hG : env.getattrOk with
      | false =>
        have h := load_func_noattr env s m f hF hI hG
        refine ⟨h.2.1, h.2.2.1, fun i hi => ?_, fun g hg => ?_,
          fun _ i hi => ?_⟩
        · exact h.2.2.2.1 i (by omega) (by omega)
        · rw [h.1] at hg; simp at hg
        · rcases eq_or_ne i s.nextId with rfl | hne0
          · exact h.2.1
          · rcases eq_or_ne i (s.nextId + 1) with rfl | hne1
            · exact h.2.2.1
            · rw [h.2.2.2.1 i hne0 hne1]; exact hfresh i hi
      | true =>
        have h := load_func_ok env s m f hF hI hG
        refine ⟨h.2.1, h.2.2.1, fun i hi => ?_, fun g hg => ?_,
          fun hnone => ?_⟩
        · exact h.2.2.2.2.1 i (by omega) (by omega) (by omega)
        · rw [h.1] at hg
          cases hg
          exact ⟨rfl, h.2.2.2.1⟩
        · rw [h.1] at hnone; simp at hnone

/-- Claim C4 witness: a concrete failing resolution from the start state
leaves the heap completely empty (no dangling owned references). -/
theorem load_func_releases_intermediates_witness :
    heapFreshFrom emptyState ∧
    (load_func ⟨true, false, true, true, fun _ _ => none, true⟩
        emptyState "nonexistent_mod" "zscore").1.heap 0 = none := by
  refine ⟨fun i _ => rfl, ?_⟩
  exact (load_func_releases_intermediates
    ⟨true, false, true, true, fun _ _ => none, true⟩
    emptyState "nonexistent_mod" "zscore" (fun i _ => rfl)).1

/-- Claim C5, counterexample: the returned object's reported element count
is negative (-3), yet `detect` returns it unchanged in `size` with the
error flag 0 — there is no internal-consistency check turning a negative
count into an error. -/
theorem detect_negative_count_cex :
    npySize (.otherObj (-3)) < 0 ∧
    (detect ⟨true, true, true, true, fun _ _ => some (.otherObj (-3)), true⟩
        emptyState 0 500 6).2.size = -3 ∧
    (detect ⟨true, true, true, true, fun _ _ => some (.otherObj (-3)), true⟩
        emptyState 0 500 6).2.err = 0 := by
  exact ⟨by decide, rfl, rfl⟩

/-- Claim C5 (amended): `count` always equals the element count reported by
the returned object's size metadata, but the value is entirely unchecked:
when the reported count is negative, `detect` still returns it as a
success (error flag 0) instead of failing. -/
theorem detect_count_unchecked (env : Env) (s : PyState) (func : ObjId)
    (values : Nat) (size : Int) (v : PyVal)
    (hA : env.arrayNewOk = true) (hc : env.call func size = some v) :
    (detect env s func values size).2.size = npySize v ∧
    (npySize v < 0 → (detect env s func values size).2.size < 0 ∧
      (detect env s func values size).2.err = 0) := by
  have h := detect_ok env s func values size v hA hc
  exact ⟨by simp [h.1], fun hneg => ⟨by simp [h.1]; exact hneg, by simp [h.1]⟩⟩

/-- Claim C5 (amended) witness at a concrete negative reported count. -/
theorem detect_count_unchecked_witness :
    npySize (.otherObj (-1)) < 0 ∧
    (detect ⟨true, true, true, true, fun _ _ => some (.otherObj (-1)), true⟩
        emptyState 1 7 2).2.size < 0 ∧
    (detect ⟨true, true, true, true, fun _ _ => some (.otherObj (-1)), true⟩
        emptyState 1 7 2).2.err = 0 := by
  have h := detect_count_unchecked
    ⟨true, true, true, true, fun _ _ => some (.otherObj (-1)), true⟩
    emptyState 1 7 2 (.otherObj (-1)) rfl rfl
  exact ⟨by decide, (h.2 (by decide)).1, (h.2 (by decide)).2⟩

/-- Claim C6: `py_last_error` returns NULL exactly when no error is
pending; when one is pending it returns the UTF-8 buffer of the string
object produced by the runtime's own string conversion of the pending error
object (that object holds `str(e)` with one owned reference when created). -/
theorem py_last_error_spec (s : PyState) :
    ((py_last_error s).2 = none ↔ s.pendingErr = none) ∧
    (∀ e, s.pendingErr = some e →
      (py_last_error s).2 = some (PyUnicode_AsUTF8 (PyObject_Str s e).2) ∧
      (PyObject_Str s e).1.heap (PyObject_Str s e).2 =
        some ⟨.strObj (pyToStr e), 1⟩) := by
  constructor
  · cases h : s.pendingErr with
    | none => simp [py_last_error, PyErr_Occurred, h]
    | some e => simp [py_last_error, PyErr_Occurred, h]
  · intro e he
    constructor
    · simp [py_last_error, PyErr_Occurred, he, PyObject_Str, alloc,
        PyUnicode_AsUTF8, decref]
    · simp [PyObject_Str, alloc]

/-- Claim C6 witness at a concrete pending error. -/
theorem py_last_error_spec_witness :
    (py_last_error ⟨fun _ => none, 0, some (.excObj "boom")⟩).2 =
      some (PyUnicode_AsUTF8
        (PyObject_Str ⟨fun _ => none, 0, some (.excObj "boom")⟩
          (.excObj "boom")).2) := by
  exact ((py_last_error_spec ⟨fun _ => none, 0, some (.excObj "boom")⟩).2
    (.excObj "boom") rfl).1

/-- Claim C7: round trip — when the detector returns the identity-index
array `[0, 1, ..., N-1]` for an input buffer of length `N`, `detect`
succeeds with count `N` and the `indices` buffer reads back exactly
`[0, 1, ..., N-1]`. -/
theorem detect_identity_roundtrip (env : Env) (s : PyState) (func : ObjId)
    (values : Nat) (N : Nat) (hA : env.arrayNewOk = true)
    (hc : env.call func (N : Int) = some (.ndarrayI64 (identityIndices N))) :
    (detect env s func values (N : Int)).2.err = 0 ∧
    (detect env s func values (N : Int)).2.size = (N : Int) ∧
    readIndices (detect env s func values (N : Int)).1
      (detect env s func values (N : Int)).2.indices N =
      some (identityIndices N) := by
  have h := detect_ok env s func values (N : Int)
    (.ndarrayI64 (identityIndices N)) hA hc
  have hlen : (identityIndices N).length = N := by
    simp [identityIndices]
  refine ⟨by simp [h.1], ?_, ?_⟩
  · simp [h.1, npySize, hlen]
  · simp [readIndices, h.1, h.2.1, hlen]

/-- Claim C7 witness at `N = 3`. -/
theorem detect_identity_roundtrip_witness :
    (detect ⟨true, true, true, true,
        fun _ _ => some (.ndarrayI64 (identityIndices 3)), true⟩
        emptyState 0 17 (3 : Nat)).2.err = 0 ∧
    (detect ⟨true, true, true, true,
        fun _ _ => some (.ndarrayI64 (identityIndices 3)), true⟩
        emptyState 0 17 (3 : Nat)).2.size = (3 : Nat) ∧
    readIndices (detect ⟨true, true, true, true,
        fun _ _ => some (.ndarrayI64 (identityIndices 3)), true⟩
        emptyState 0 17 (3 : Nat)).1
      (detect ⟨true, true, true, true,
        fun _ _ => some (.ndarrayI64 (identityIndices 3)), true⟩
        emptyState 0 17 (3 : Nat)).2.indices 3 =
      some (identityIndices 3) := by
  exact detect_identity_roundtrip
    ⟨true, true, true, true,
      fun _ _ => some (.ndarrayI64 (identityIndices 3)), true⟩
    emptyState 0 17 3 rfl rfl

/-- Claim C8: the argument tuple built by `detect` (which stole the single
reference to the array view) is never released on any exit path: once the
call is over — successfully or not — the tuple and the array view it wraps
are both still allocated with one owned reference each, and the caller is
handed no reference to either, so each `detect` call permanently leaks
them. -/
theorem detect_leaks_args (env : Env) (s : PyState) (func : ObjId)
    (values : Nat) (size : Int) (hA : env.arrayNewOk = true) :
    (detect env s func values size).1.heap (s.nextId + 1) =
      some ⟨.tupleObj [some s.nextId], 1⟩ ∧
    (detect env s func values size).1.heap s.nextId =
      some ⟨.ndarrayF64 values size, 1⟩ ∧
    (detect env s func values size).2.obj ≠ some (s.nextId + 1) ∧
    (detect env s func values size).2.obj ≠ some s.nextId := by
  cases hc : env.call func size with
  | none =>
    have h := detect_raise env s func values size hA hc
    exact ⟨h.2.1, h.2.2.1, by simp [h.1], by simp [h.1]⟩
  | some v =>
    have h := detect_ok env s func values size v hA hc
    refine ⟨h.2.2.1, h.2.2.2.1, ?_, ?_⟩
    · have hne : s.nextId + 2 ≠ s.nextId + 1 := by omega
      simp [h.1, hne]
    · have hne : s.nextId + 2 ≠ s.nextId := by omega
      simp [h.1, hne]

/-- Claim C8 witness: the leak observed on a concrete invocation-failure
path (tuple and wrapped array view both survive the call). -/
theorem detect_leaks_args_witness :
    (detect ⟨true, true, true, true, fun _ _ => none, true⟩
        emptyState 0 9 5).1.heap 1 = some ⟨.tupleObj [some 0], 1⟩ ∧
    (detect ⟨true, true, true, true, fun _ _ => none, true⟩
        emptyState 0 9 5).1.heap 0 = some ⟨.ndarrayF64 9 5, 1⟩ := by
  have h := detect_leaks_args ⟨true, true, true, true, fun _ _ => none, true⟩
    emptyState 0 9 5 rfl
  exact ⟨h.1, h.2.1⟩

/-- Claim C9: when an error is pending, `py_last_error` drops its owned
reference to the temporary string object before returning (deallocating
it, since it held the only reference), yet the pointer it returns is the
UTF-8 buffer inside that very object's storage: in the state the caller
receives, the returned pointer targets a deallocated object. -/
theorem py_last_error_returns_dangling (s : PyState) (e : PyVal)
    (h : s.pendingErr = some e) :
    (py_last_error s).2 = some (Ptr.objData s.nextId) ∧
    (PyObject_Str s e).2 = s.nextId ∧
    (PyObject_Str s e).1.heap s.nextId = some ⟨.strObj (pyToStr e), 1⟩ ∧
    (py_last_error s).1.heap s.nextId = none := by
  refine ⟨?_, rfl, ?_, ?_⟩
  · simp [py_last_error, PyErr_Occurred, h, PyObject_Str, alloc,
      PyUnicode_AsUTF8]
  · simp [PyObject_Str, alloc]
  · simp [py_last_error, PyErr_Occurred, h, PyObject_Str, alloc, decref]

/-- Claim C9 witness at a concrete pending error. -/
theorem py_last_error_returns_dangling_witness :
    (py_last_error ⟨fun _ => none, 4, some (.excObj "kaput")⟩).2 =
      some (Ptr.objData 4) ∧
    (py_last_error ⟨fun _ => none, 4, some (.excObj "kaput")⟩).1.heap 4 =
      none := by
  have h := py_last_error_returns_dangling
    ⟨fun _ => none, 4, some (.excObj "kaput")⟩ (.excObj "kaput") rfl
  exact ⟨h.1, h.2.2.2⟩

/-- Claim C10: `init_python` returns the defined value NULL exactly on the
`import_array` failure path; on the successful-initialization path control
falls off the end of the non-void function, so the returned value is
unspecified — and since the unspecified value may well be NULL itself
(observing garbage NULL), the caller cannot distinguish success from
failure by the return value. -/
theorem init_python_return_unspecified :
    (∀ env : Env, init_python env = CRet.value Ptr.null ↔
      env.importArrayOk = false) ∧
    (∀ env : Env, env.importArrayOk = true → init_python env = CRet.undef) ∧
    (∀ e1 e2 : Env, observeRet (init_python e1) Ptr.null =
      observeRet (init_python e2) Ptr.null) := by
  refine ⟨fun env => ?_, fun env h => ?_, fun e1 e2 => ?_⟩
  · cases h : env.importArrayOk <;> simp [init_python, h]
  · simp [init_python, h]
  · cases h1 : e1.importArrayOk <;> cases h2 : e2.importArrayOk <;>
      simp [init_python, observeRet, h1, h2]

/-- Claim C10 witness: concrete environments on the success and failure
paths whose observed return values coincide. -/
theorem init_python_return_unspecified_witness :
    init_python ⟨true, true, true, true, fun _ _ => none, true⟩ =
      CRet.undef ∧
    observeRet (init_python ⟨true, true, true, true, fun _ _ => none, true⟩)
        Ptr.null =
      observeRet (init_python ⟨true, true, true, true, fun _ _ => none, false⟩)
        Ptr.null := by
  exact ⟨init_python_return_unspecified.2.1
      ⟨true, true, true, true, fun _ _ => none, true⟩ rfl,
    init_python_return_unspecified.2.2
      ⟨true, true, true, true, fun _ _ => none, true⟩
      ⟨true, true, true, true, fun _ _ => none, false⟩⟩

end PyGlue
